import Mathlib

/-!
Verification development for the Stacks wallet-integration helpers
(`stacks-connect.js`) and the Arkadiko protocol integration example that
uses them. The JavaScript source is shallowly embedded: external library
calls (the wallet signer, the read-only query endpoint) are modelled as
explicit response parameters, promise settlement as an `Except` result,
and the sequence of observable actions (external calls, user callbacks,
promise settlement) as an explicit event trace.
-/

namespace StacksConnect

/-! ## JavaScript primitives used by the source -/

/-- A JavaScript `Error` value: `new Error(msg)` yields name `"Error"`.
The name field is the error "kind" (class name) a caller can branch on. -/
structure JsError where
  name : String
  message : String
deriving DecidableEq, Repr

/-- Embeds JavaScript `String.prototype.split` with a one-character
separator: splits on every occurrence, keeping empty segments, and the
result is never the empty list (`"".split(sep)` is `[""]`). -/
def jsSplit (sep : Char) : List Char → List (List Char)
  | [] => [[]]
  | c :: cs =>
    match jsSplit sep cs with
    | [] => [[]]
    | r :: rs => if c = sep then [] :: r :: rs else (c :: r) :: rs

/-- Embeds the idiom `const [a, b] = s.split('.')` used throughout the
source to parse `"address.name"` contract identifiers: destructuring a
JavaScript array binds missing positions to `undefined`, modelled as
`none`. -/
def parseContractId (s : String) : Option String × Option String :=
  let parts := (jsSplit '.' s.data).map String.mk
  (parts.get? 0, parts.get? 1)

/-- The join the specification describes for round-tripping a parsed
contract identifier: re-join the two parts with a dot. -/
def joinContractId (address name : String) : String :=
  address ++ "." ++ name

/-- A JavaScript number-or-string amount value, as accepted (and stored)
by the STX transfer payload. -/
inductive JsAmount
  | num (n : Nat)
  | str (s : String)
deriving DecidableEq, Repr

/-- `amount.toString()`: for a (non-negative integer) JavaScript number
this is its decimal digit string; for a string it is the string itself. -/
def JsAmount.toString : JsAmount → String
  | .num n => Nat.repr n
  | .str s => s

/-! ## Data model of the wrapped transaction library -/

/-- Network selection: `testnet ? new StacksTestnet() : new StacksMainnet()`. -/
inductive StacksNetwork
  | mainnet
  | testnet
deriving DecidableEq, Repr

def networkOf (testnet : Bool) : StacksNetwork :=
  if testnet then .testnet else .mainnet

/-- `PostConditionMode` from the transaction library. -/
inductive PostConditionMode
  | deny
  | allow
deriving DecidableEq, Repr

/-- `FungibleConditionCode` comparators from the transaction library. -/
inductive FungibleConditionCode
  | equal
  | greater
  | greaterEqual
  | less
  | lessEqual
deriving DecidableEq, Repr

/-- Clarity typed values, as built by the constructors the source imports
(`uintCV`, `intCV`, `bufferCV`, `stringAsciiCV`, `stringUtf8CV`,
`standardPrincipalCV`, `contractPrincipalCV`). Contract-principal parts
may be `undefined` in the source (they come from array destructuring of
`split('.')` results), hence `Option String`. -/
inductive ClarityValue
  | uintCV (value : Nat)
  | intCV (value : Int)
  | bufferCV (bytes : List Nat)
  | stringAsciiCV (s : String)
  | stringUtf8CV (s : String)
  | standardPrincipalCV (address : String)
  | contractPrincipalCV (address : Option String) (name : Option String)
deriving DecidableEq, Repr

/-- An STX post-condition on a standard principal, as produced by
`makeStandardSTXPostCondition(address, conditionCode, amount)`. -/
structure PostCondition where
  principal : String
  conditionCode : FungibleConditionCode
  amount : Nat
deriving DecidableEq, Repr

def makeStandardSTXPostCondition (address : String)
    (conditionCode : FungibleConditionCode) (amount : Nat) : PostCondition :=
  { principal := address, conditionCode := conditionCode, amount := amount }

/-- The `clarityHelpers` object of the source. -/
def clarityHelpers.toUint (value : Nat) : ClarityValue := .uintCV value

def clarityHelpers.toInt (value : Int) : ClarityValue := .intCV value

def clarityHelpers.toString (value : String) : ClarityValue := .stringUtf8CV value

def clarityHelpers.toAscii (value : String) : ClarityValue := .stringAsciiCV value

def clarityHelpers.toBuffer (value : List Nat) : ClarityValue := .bufferCV value

def clarityHelpers.toPrincipal (address : String) : ClarityValue :=
  .standardPrincipalCV address

def clarityHelpers.toContract (address : Option String) (name : Option String) :
    ClarityValue := .contractPrincipalCV address name

/-! ## Requests sent to the external boundaries -/

/-- The options object `executeContractCall` hands to `openContractCall`. -/
structure ContractCallRequest where
  network : StacksNetwork
  contractAddress : Option String
  contractName : Option String
  functionName : String
  functionArgs : List ClarityValue
  postConditions : List PostCondition
  postConditionMode : PostConditionMode
deriving DecidableEq, Repr

/-- The options object `transferSTX` hands to `openSTXTransfer`. The
amount slot is a JavaScript value that could hold a number or a string;
the source always stores `amount.toString()`. -/
structure STXTransferRequest where
  network : StacksNetwork
  recipient : String
  amount : JsAmount
  memo : String
deriving DecidableEq, Repr

/-- The payload `callReadOnlyFunction` hands to `fetchCallReadOnlyFunction`. -/
structure ReadOnlyRequest where
  network : StacksNetwork
  contractAddress : Option String
  contractName : Option String
  functionName : String
  functionArgs : List ClarityValue
  senderAddress : String
deriving DecidableEq, Repr

/-- One external operation issued by this module into a wrapped library. -/
inductive RemoteOp
  | showConnect (appName : String) (appIconUrl : String)
  | openContractCall (req : ContractCallRequest)
  | openSTXTransfer (req : STXTransferRequest)
  | fetchCallReadOnly (req : ReadOnlyRequest)
deriving DecidableEq, Repr

/-! ## Signer and wallet responses, outcomes, sessions -/

/-- The completion payload the signer delivers to `onFinish`. -/
structure FinishData where
  txId : String
  txRaw : String
deriving DecidableEq, Repr

/-- The resolved value of `executeContractCall` / `transferSTX`. -/
structure TxOutcome where
  txId : String
  txRaw : String
deriving DecidableEq, Repr

/-- The external signing agent either approves (invoking `onFinish` with
completion data) or cancels (invoking `onCancel`). -/
inductive SignerResponse
  | approved (data : FinishData)
  | cancelled
deriving DecidableEq, Repr

structure StxAddressByNetwork where
  mainnet : String
  testnet : String
deriving DecidableEq, Repr

structure Profile where
  stxAddress : StxAddressByNetwork
deriving DecidableEq, Repr

/-- The user data obtained from `userSession.loadUserData()`. -/
structure UserData where
  profile : Profile
deriving DecidableEq, Repr

/-- `data.userSession` as delivered to the wallet-connect `onFinish`;
`loadUserData` is a stable accessor, modelled as a value. -/
structure UserSession where
  loadUserData : UserData
deriving DecidableEq, Repr

structure ConnectFinishData where
  userSession : UserSession
deriving DecidableEq, Repr

/-- The wallet either completes the handshake or the user cancels it. -/
inductive ConnectResponse
  | finished (data : ConnectFinishData)
  | cancelled
deriving DecidableEq, Repr

/-- The value `connectWallet` resolves with. -/
structure ConnectionSession where
  userAddress : String
  userData : UserData
deriving DecidableEq, Repr

/-! ## Observable events

Each embedded function returns the ordered trace of its observable
actions together with its settlement, so that issue-once and
callback-before-settlement properties can be stated. -/

inductive Ev
  | issue (op : RemoteOp)
  | finishCb (data : FinishData)
  | cancelCb
  | resolvedTx (o : TxOutcome)
  | resolvedSession (s : ConnectionSession)
  | rejected (e : JsError)
deriving DecidableEq, Repr

/-- Whether an event settles the returned promise. -/
def Ev.isSettle : Ev → Bool
  | .resolvedTx _ => true
  | .resolvedSession _ => true
  | .rejected _ => true
  | _ => false

/-- The external operations issued in a trace, in order. -/
def issuedOps (tr : List Ev) : List RemoteOp :=
  tr.filterMap fun e =>
    match e with
    | .issue op => some op
    | _ => none

/-- The callback event occurs at a position strictly before any promise
settlement, and a settlement does occur after it. -/
def invokedStrictlyBeforeSettle (cb : Ev) (tr : List Ev) : Prop :=
  ∃ pre suf, tr = pre ++ cb :: suf ∧ (∀ e ∈ pre, e.isSettle = false) ∧
    ∃ e ∈ suf, e.isSettle = true

/-! ## The gateway functions of `stacks-connect.js` -/

/-- The rejection value of `reject(new Error('User cancelled transaction'))`. -/
def userCancelledTxError : JsError :=
  { name := "Error", message := "User cancelled transaction" }

/-- The rejection value of `reject(new Error('User cancelled STX transfer'))`. -/
def userCancelledTransferError : JsError :=
  { name := "Error", message := "User cancelled STX transfer" }

/-- The rejection value of
`reject(new Error('User cancelled wallet connection'))`. -/
def userCancelledConnectError : JsError :=
  { name := "Error", message := "User cancelled wallet connection" }

/-- Parameters of `connectWallet`, with the source defaults. -/
structure ConnectWalletParams where
  appName : String := "DefiLlama Adapter"
  appIconUrl : String := "https://defillama.com/favicon.ico"
deriving DecidableEq, Repr

/-- `connectWallet`: issues `showConnect` and, on completion, resolves
with the mainnet address from the loaded profile together with the full
user data; on cancellation rejects with a plain `Error`. -/
def connectWallet (p : ConnectWalletParams) (resp : ConnectResponse) :
    List Ev × Except JsError ConnectionSession :=
  match resp with
  | .finished d =>
    let session : ConnectionSession :=
      { userAddress := d.userSession.loadUserData.profile.stxAddress.mainnet
        userData := d.userSession.loadUserData }
    ([Ev.issue (RemoteOp.showConnect p.appName p.appIconUrl),
      Ev.resolvedSession session],
     Except.ok session)
  | .cancelled =>
    ([Ev.issue (RemoteOp.showConnect p.appName p.appIconUrl),
      Ev.rejected userCancelledConnectError],
     Except.error userCancelledConnectError)

/-- Parameters of `callReadOnlyFunction`, with the source defaults.
The contract address and name come from `split('.')` destructuring at
every call site, hence `Option String`. -/
structure ReadOnlyParams where
  contractAddress : Option String
  contractName : Option String
  functionName : String
  functionArgs : List ClarityValue := []
  senderAddress : String
  testnet : Bool := false
deriving DecidableEq, Repr

/-- `callReadOnlyFunction`: issues one `fetchCallReadOnlyFunction` call
and returns its result unchanged (`await` propagates a failure to the
caller as-is). -/
def callReadOnlyFunction (p : ReadOnlyParams)
    (resp : Except JsError ClarityValue) :
    List Ev × Except JsError ClarityValue :=
  ([Ev.issue (RemoteOp.fetchCallReadOnly
      { network := networkOf p.testnet
        contractAddress := p.contractAddress
        contractName := p.contractName
        functionName := p.functionName
        functionArgs := p.functionArgs
        senderAddress := p.senderAddress })],
   resp)

/-- Parameters of `executeContractCall`, with the source defaults.
`onFinish`/`onCancel` record whether the caller supplied the optional
callbacks. `postConditionMode` records a property some call sites (such
as `openVault`) include in the options object; the parameter
destructuring of `executeContractCall` does not bind it, so it never
reaches the built request. -/
structure ExecuteContractCallParams where
  contractAddress : Option String
  contractName : Option String
  functionName : String
  functionArgs : List ClarityValue := []
  postConditions : List PostCondition := []
  testnet : Bool := false
  onFinish : Bool := false
  onCancel : Bool := false
  postConditionMode : Option PostConditionMode := none
deriving DecidableEq, Repr

/-- The request object `executeContractCall` passes to
`openContractCall`: the mode is the hard-coded
`postConditionMode: PostConditionMode.Deny` of the source. -/
def buildContractCallRequest (p : ExecuteContractCallParams) :
    ContractCallRequest :=
  { network := networkOf p.testnet
    contractAddress := p.contractAddress
    contractName := p.contractName
    functionName := p.functionName
    functionArgs := p.functionArgs
    postConditions := p.postConditions
    postConditionMode := PostConditionMode.deny }

/-- `executeContractCall`: issues one `openContractCall`; on approval it
first invokes the caller `onFinish` callback (when supplied) with the
completion data and then resolves with `{txId, txRaw}`; on cancellation
it first invokes `onCancel` (when supplied) and then rejects with a
plain `Error`. -/
def executeContractCall (p : ExecuteContractCallParams)
    (resp : SignerResponse) : List Ev × Except JsError TxOutcome :=
  let req := buildContractCallRequest p
  match resp with
  | .approved d =>
    (Ev.issue (RemoteOp.openContractCall req) ::
       ((if p.onFinish then [Ev.finishCb d] else []) ++
        [Ev.resolvedTx { txId := d.txId, txRaw := d.txRaw }]),
     Except.ok { txId := d.txId, txRaw := d.txRaw })
  | .cancelled =>
    (Ev.issue (RemoteOp.openContractCall req) ::
       ((if p.onCancel then [Ev.cancelCb] else []) ++
        [Ev.rejected userCancelledTxError]),
     Except.error userCancelledTxError)

/-- Parameters of `transferSTX`, with the source defaults. -/
structure TransferSTXParams where
  recipient : String
  amount : JsAmount
  memo : String := ""
  testnet : Bool := false
  onFinish : Bool := false
  onCancel : Bool := false
deriving DecidableEq, Repr

/-- The request object `transferSTX` passes to `openSTXTransfer`: the
amount slot always receives `amount.toString()`. -/
def buildSTXTransferRequest (p : TransferSTXParams) : STXTransferRequest :=
  { network := networkOf p.testnet
    recipient := p.recipient
    amount := JsAmount.str p.amount.toString
    memo := p.memo }

/-- `transferSTX`: issues one `openSTXTransfer`; approval and
cancellation are handled exactly as in `executeContractCall`, with its
own rejection message. -/
def transferSTX (p : TransferSTXParams) (resp : SignerResponse) :
    List Ev × Except JsError TxOutcome :=
  let req := buildSTXTransferRequest p
  match resp with
  | .approved d =>
    (Ev.issue (RemoteOp.openSTXTransfer req) ::
       ((if p.onFinish then [Ev.finishCb d] else []) ++
        [Ev.resolvedTx { txId := d.txId, txRaw := d.txRaw }]),
     Except.ok { txId := d.txId, txRaw := d.txRaw })
  | .cancelled =>
    (Ev.issue (RemoteOp.openSTXTransfer req) ::
       ((if p.onCancel then [Ev.cancelCb] else []) ++
        [Ev.rejected userCancelledTransferError]),
     Except.error userCancelledTransferError)

/-- Parameters of `exampleSwapTokens` in `stacks-connect.js`. -/
structure ExampleSwapTokensParams where
  dexContract : String
  tokenIn : String
  tokenOut : String
  amountIn : Nat
  minAmountOut : Nat
  userAddress : String
deriving DecidableEq, Repr

/-- The options object `exampleSwapTokens` passes to
`executeContractCall`: the DEX contract and both token principals are
parsed with `split('.')`, and one `LessEqual` STX post-condition bounds
`amountIn`; both logging callbacks are supplied. -/
def exampleSwapTokensCallParams (p : ExampleSwapTokensParams) :
    ExecuteContractCallParams :=
  let dex := parseContractId p.dexContract
  let tin := parseContractId p.tokenIn
  let tout := parseContractId p.tokenOut
  { contractAddress := dex.1
    contractName := dex.2
    functionName := "swap"
    functionArgs :=
      [ClarityValue.contractPrincipalCV tin.1 tin.2,
       ClarityValue.contractPrincipalCV tout.1 tout.2,
       ClarityValue.uintCV p.amountIn,
       ClarityValue.uintCV p.minAmountOut]
    postConditions :=
      [makeStandardSTXPostCondition p.userAddress
        FungibleConditionCode.lessEqual p.amountIn]
    onFinish := true
    onCancel := true }

/-- `exampleSwapTokens`: builds its options and delegates to
`executeContractCall`. -/
def exampleSwapTokens (p : ExampleSwapTokensParams) (resp : SignerResponse) :
    List Ev × Except JsError TxOutcome :=
  executeContractCall (exampleSwapTokensCallParams p) resp

/-! ## The Arkadiko integration example (the second source file) -/

structure ArkadikoContracts where
  vaultsPool : String
  swap : String
  vaultsManager : String
  oracle : String
  dikoToken : String
  usdaToken : String
deriving DecidableEq, Repr

def ARKADIKO_CONTRACTS : ArkadikoContracts :=
  { vaultsPool :=
      "SP2C2YFP12AJZB4MABJBAJ55XECVS7E4PMMZ89YZR.arkadiko-vaults-pool-active-v1-1"
    swap := "SP2C2YFP12AJZB4MABJBAJ55XECVS7E4PMMZ89YZR.arkadiko-swap-v2-1"
    vaultsManager := "SP2C2YFP12AJZB4MABJBAJ55XECVS7E4PMMZ89YZR.arkadiko-freddie-v1-1"
    oracle := "SP2C2YFP12AJZB4MABJBAJ55XECVS7E4PMMZ89YZR.arkadiko-oracle-v2-3"
    dikoToken := "SP2C2YFP12AJZB4MABJBAJ55XECVS7E4PMMZ89YZR.arkadiko-token"
    usdaToken := "SP2C2YFP12AJZB4MABJBAJ55XECVS7E4PMMZ89YZR.usda-token" }

/-- `getUserVault(userAddress, vaultId)`: one read-only call on the
vaults manager. -/
def getUserVault (userAddress : String) (vaultId : Nat)
    (resp : Except JsError ClarityValue) :
    List Ev × Except JsError ClarityValue :=
  let c := parseContractId ARKADIKO_CONTRACTS.vaultsManager
  callReadOnlyFunction
    { contractAddress := c.1
      contractName := c.2
      functionName := "get-vault-by-id"
      functionArgs := [clarityHelpers.toUint vaultId]
      senderAddress := userAddress }
    resp

structure OpenVaultParams where
  collateralAmount : Nat
  debtAmount : Nat
  userAddress : String
deriving DecidableEq, Repr

/-- The options object `openVault` passes to `executeContractCall`: one
`LessEqual` STX post-condition bounding the collateral debit, plus an
explicit `postConditionMode: PostConditionMode.Deny` property in the
options (which `executeContractCall` ignores); both callbacks supplied. -/
def openVaultCallParams (p : OpenVaultParams) : ExecuteContractCallParams :=
  let c := parseContractId ARKADIKO_CONTRACTS.vaultsManager
  { contractAddress := c.1
    contractName := c.2
    functionName := "collateralize-and-mint"
    functionArgs :=
      [clarityHelpers.toUint p.collateralAmount,
       clarityHelpers.toUint p.debtAmount,
       clarityHelpers.toAscii "STX-A",
       clarityHelpers.toPrincipal p.userAddress]
    postConditions :=
      [makeStandardSTXPostCondition p.userAddress
        FungibleConditionCode.lessEqual p.collateralAmount]
    onFinish := true
    onCancel := true
    postConditionMode := some PostConditionMode.deny }

/-- `openVault`: builds its options and delegates to
`executeContractCall`. -/
def openVault (p : OpenVaultParams) (resp : SignerResponse) :
    List Ev × Except JsError TxOutcome :=
  executeContractCall (openVaultCallParams p) resp

structure DepositCollateralParams where
  vaultId : Nat
  amount : Nat
  userAddress : String
deriving DecidableEq, Repr

/-- The options object `depositCollateral` passes to
`executeContractCall`: one `Equal` STX post-condition on the deposited
amount; only `onFinish` supplied. -/
def depositCollateralCallParams (p : DepositCollateralParams) :
    ExecuteContractCallParams :=
  let c := parseContractId ARKADIKO_CONTRACTS.vaultsManager
  { contractAddress := c.1
    contractName := c.2
    functionName := "deposit"
    functionArgs :=
      [clarityHelpers.toUint p.vaultId, clarityHelpers.toUint p.amount]
    postConditions :=
      [makeStandardSTXPostCondition p.userAddress
        FungibleConditionCode.equal p.amount]
    onFinish := true }

/-- `depositCollateral`: builds its options and delegates to
`executeContractCall`. -/
def depositCollateral (p : DepositCollateralParams) (resp : SignerResponse) :
    List Ev × Except JsError TxOutcome :=
  executeContractCall (depositCollateralCallParams p) resp

structure SwapTokensParams where
  tokenX : String
  tokenY : String
  amountIn : Nat
  minAmountOut : Nat
  userAddress : String
deriving DecidableEq, Repr

/-- The options object `swapTokens` passes to `executeContractCall`: the
source passes `postConditions: []` (its comment says to add appropriate
token post-conditions); only `onFinish` supplied. -/
def swapTokensCallParams (p : SwapTokensParams) : ExecuteContractCallParams :=
  let c := parseContractId ARKADIKO_CONTRACTS.swap
  let tx := parseContractId p.tokenX
  let ty := parseContractId p.tokenY
  { contractAddress := c.1
    contractName := c.2
    functionName := "swap-x-for-y"
    functionArgs :=
      [clarityHelpers.toContract tx.1 tx.2,
       clarityHelpers.toContract ty.1 ty.2,
       clarityHelpers.toUint p.amountIn,
       clarityHelpers.toUint p.minAmountOut]
    postConditions := []
    onFinish := true }

/-- `swapTokens`: builds its options and delegates to
`executeContractCall`. -/
def swapTokens (p : SwapTokensParams) (resp : SignerResponse) :
    List Ev × Except JsError TxOutcome :=
  executeContractCall (swapTokensCallParams p) resp

/-- `getStxPrice(senderAddress)`: one read-only call on the oracle. -/
def getStxPrice (senderAddress : String)
    (resp : Except JsError ClarityValue) :
    List Ev × Except JsError ClarityValue :=
  let c := parseContractId ARKADIKO_CONTRACTS.oracle
  callReadOnlyFunction
    { contractAddress := c.1
      contractName := c.2
      functionName := "get-price"
      functionArgs := [clarityHelpers.toAscii "STX"]
      senderAddress := senderAddress }
    resp

/-- The value `exampleUserFlow` resolves with. -/
structure ExampleUserFlowResult where
  userAddress : String
  vaultTx : TxOutcome
  vaultDetails : ClarityValue
deriving DecidableEq, Repr

/-- `exampleUserFlow`: connect wallet, read the STX price, open a vault
with the hard-coded amounts, read the vault back. Each `await` stops the
flow at the first failure; the `catch` block logs and rethrows the error
unchanged. -/
def exampleUserFlow (connResp : ConnectResponse)
    (priceResp : Except JsError ClarityValue)
    (vaultResp : SignerResponse)
    (detailsResp : Except JsError ClarityValue) :
    List Ev × Except JsError ExampleUserFlowResult :=
  let step1 := connectWallet
    { appName := "Arkadiko Protocol"
      appIconUrl := "https://arkadiko.finance/favicon.ico" } connResp
  match step1.2 with
  | .error e => (step1.1, .error e)
  | .ok session =>
    let step2 := getStxPrice session.userAddress priceResp
    match step2.2 with
    | .error e => (step1.1 ++ step2.1, .error e)
    | .ok _ =>
      let step3 := openVault
        { collateralAmount := 1000000000
          debtAmount := 500000000
          userAddress := session.userAddress } vaultResp
      match step3.2 with
      | .error e => (step1.1 ++ step2.1 ++ step3.1, .error e)
      | .ok vaultTx =>
        let step4 := getUserVault session.userAddress 1 detailsResp
        match step4.2 with
        | .error e => (step1.1 ++ step2.1 ++ step3.1 ++ step4.1, .error e)
        | .ok details =>
          (step1.1 ++ step2.1 ++ step3.1 ++ step4.1,
           .ok { userAddress := session.userAddress
                 vaultTx := vaultTx
                 vaultDetails := details })

/-- Modelled from the spec: the user address the specification says a
connection session carries — "userAddress: string per selected network"
— i.e. the profile address belonging to the network the caller selected.
Declared only to compare the specified behaviour of `connectWallet`
against the source behaviour, which reads `stxAddress.mainnet`
unconditionally. -/
def specSelectedNetworkAddress (net : StacksNetwork) (prof : Profile) : String :=
  match net with
  | .mainnet => prof.stxAddress.mainnet
  | .testnet => prof.stxAddress.testnet

/-! ## Helper lemmas about `jsSplit` -/

theorem jsSplit_ne_nil (sep : Char) (l : List Char) : jsSplit sep l ≠ [] := by
  cases l with
  | nil => simp [jsSplit]
  | cons c cs =>
    cases h : jsSplit sep cs with
    | nil => simp [jsSplit, h]
    | cons r rs =>
      simp only [jsSplit, h]
      split <;> simp

theorem jsSplit_no_sep (sep : Char) (l : List Char) (h : sep ∉ l) :
    jsSplit sep l = [l] := by
  induction l with
  | nil => rfl
  | cons c cs ih =>
    have hc : ¬ c = sep := fun e => h (e ▸ List.mem_cons_self c cs)
    have hcs : sep ∉ cs := fun hm => h (List.mem_cons_of_mem _ hm)
    simp [jsSplit, ih hcs, hc]

theorem jsSplit_append_sep (sep : Char) (a b : List Char) (ha : sep ∉ a) :
    jsSplit sep (a ++ sep :: b) = a :: jsSplit sep b := by
  induction a with
  | nil =>
    cases h : jsSplit sep b with
    | nil => exact absurd h (jsSplit_ne_nil sep b)
    | cons r rs => simp [jsSplit, h]
  | cons c cs ih =>
    have hc : ¬ c = sep := fun e => ha (e ▸ List.mem_cons_self c cs)
    have hcs : sep ∉ cs := fun hm => ha (List.mem_cons_of_mem _ hm)
    simp only [List.cons_append, jsSplit, hc, List.append_eq]
    rw [ih hcs]
    simp

/-- Example inputs used to instantiate hypotheses of the theorems below
on concrete data. -/
def c3ExampleParams : ExecuteContractCallParams :=
  { contractAddress := some "SP2C2YFP12AJZB4MABJBAJ55XECVS7E4PMMZ89YZR"
    contractName := some "arkadiko-swap-v2-1"
    functionName := "swap-x-for-y"
    postConditionMode := some PostConditionMode.allow }

def c10ExampleParams : ExecuteContractCallParams :=
  { contractAddress := some "SP2C2YFP12AJZB4MABJBAJ55XECVS7E4PMMZ89YZR"
    contractName := some "arkadiko-freddie-v1-1"
    functionName := "deposit"
    onFinish := true
    onCancel := true }

def c10ExampleData : FinishData := { txId := "0xabc", txRaw := "00ff" }

/-! ## Theorems for the claims -/

/-- Claim C4 (counterexample): parsing does not split on the first dot
only — `"a.b.c"` parses to `("a", "b")`, not `("a", "b.c")` — and an
input with no dot does not fail with a FormatError: it yields a partial
identifier with the whole string as address and an undefined name. -/
theorem C4_counterexample :
    parseContractId "abc" = (some "abc", none) ∧
    parseContractId "a.b.c" = (some "a", some "b") ∧
    (some "b" : Option String) ≠ some "b.c" :=
  ⟨rfl, rfl, by decide⟩

/-- Claim C4 (amended): parsing takes the first two dot-separated
segments as (address, name); an input containing no dot does not fail —
it yields the whole string as the address and leaves the name undefined,
with no FormatError raised. -/
theorem C4_no_dot_partial_parse : ∀ s : String, '.' ∉ s.data →
    parseContractId s = (some s, none) := by
  intro s h
  simp only [parseContractId]
  rw [jsSplit_no_sep '.' s.data h]
  rfl

/-- Witness for `C4_no_dot_partial_parse` at the concrete input `"abc"`. -/
theorem C4_no_dot_partial_parse_witness :
    '.' ∉ ("abc" : String).data ∧ parseContractId "abc" = (some "abc", none) :=
  ⟨by decide, C4_no_dot_partial_parse "abc" (by decide)⟩

/-- Claim C5: for every valid `"address.name"` string — a dot-free
address joined to a dot-free name — parsing yields the two parts and
re-joining them with a dot reproduces the string exactly. -/
theorem C5_parse_join_roundtrip (s a b : String)
    (ha : '.' ∉ a.data) (hb : '.' ∉ b.data) (hs : s = joinContractId a b) :
    ∃ x y, parseContractId s = (some x, some y) ∧ joinContractId x y = s := by
  subst hs
  refine ⟨a, b, ?_, rfl⟩
  have hdata : (joinContractId a b).data = a.data ++ '.' :: b.data := by
    simp only [joinContractId, String.data_append]
    simp
  simp only [parseContractId, hdata]
  rw [jsSplit_append_sep '.' a.data b.data ha, jsSplit_no_sep '.' b.data hb]
  rfl

/-- Witness for `C5_parse_join_roundtrip` on a concrete Arkadiko token
identifier. -/
theorem C5_parse_join_roundtrip_witness :
    ∃ x y,
      parseContractId "SP2C2YFP12AJZB4MABJBAJ55XECVS7E4PMMZ89YZR.arkadiko-token" =
        (some x, some y) ∧
      joinContractId x y = "SP2C2YFP12AJZB4MABJBAJ55XECVS7E4PMMZ89YZR.arkadiko-token" :=
  C5_parse_join_roundtrip _ "SP2C2YFP12AJZB4MABJBAJ55XECVS7E4PMMZ89YZR"
    "arkadiko-token" (by decide) (by decide) rfl

/-- Claim C2 (counterexample): a cancelled `executeContractCall` rejects
with a plain JavaScript `Error` — kind (class name) `"Error"`, the same
kind as any generic thrown error — not with a distinct
`UserCancelledError` kind. -/
theorem C2_counterexample :
    (executeContractCall
        { contractAddress := some "SP2C2YFP12AJZB4MABJBAJ55XECVS7E4PMMZ89YZR"
          contractName := some "arkadiko-freddie-v1-1"
          functionName := "deposit" }
        SignerResponse.cancelled).2 =
      Except.error { name := "Error", message := "User cancelled transaction" } ∧
    ({ name := "Error", message := "User cancelled transaction" } : JsError).name ≠
      "UserCancelledError" :=
  ⟨rfl, by decide⟩

/-- Claim C2 (amended): on cancellation, `executeContractCall`,
`transferSTX` and `connectWallet` each reject with a plain `Error`
(generic kind `"Error"`) carrying a fixed cancellation message and no
partial result; the three cancellation messages are pairwise distinct,
so cancellation is distinguishable only by message text, not by a
distinct error kind. -/
theorem C2_cancellation_rejects_generic_error :
    (∀ p : ExecuteContractCallParams,
        (executeContractCall p SignerResponse.cancelled).2 =
          Except.error userCancelledTxError)
  ∧ (∀ p : TransferSTXParams,
        (transferSTX p SignerResponse.cancelled).2 =
          Except.error userCancelledTransferError)
  ∧ (∀ p : ConnectWalletParams,
        (connectWallet p ConnectResponse.cancelled).2 =
          Except.error userCancelledConnectError)
  ∧ userCancelledTxError.name = "Error"
  ∧ userCancelledTransferError.name = "Error"
  ∧ userCancelledConnectError.name = "Error"
  ∧ userCancelledTxError.message ≠ userCancelledTransferError.message
  ∧ userCancelledTxError.message ≠ userCancelledConnectError.message
  ∧ userCancelledTransferError.message ≠ userCancelledConnectError.message :=
  ⟨fun _ => rfl, fun _ => rfl, fun _ => rfl, rfl, rfl, rfl,
   by decide, by decide, by decide⟩

/-- Claim C3: every request submitted through `executeContractCall` has
post-condition mode `Deny`, for all inputs — a caller-supplied mode
(such as the `Allow` a caller could place in the options object) is
dropped by the parameter destructuring and cannot weaken the mode. -/
theorem C3_mode_always_deny (p : ExecuteContractCallParams)
    (resp : SignerResponse) (req : ContractCallRequest)
    (h : Ev.issue (RemoteOp.openContractCall req) ∈ (executeContractCall p resp).1) :
    req.postConditionMode = PostConditionMode.deny := by
  cases resp <;> cases hf : p.onFinish <;> cases hc : p.onCancel <;>
    (simp [executeContractCall, hf, hc] at h; subst h; rfl)

/-- Witness for `C3_mode_always_deny` on concrete parameters that even
carry `postConditionMode := some Allow`. -/
theorem C3_mode_always_deny_witness :
    (buildContractCallRequest c3ExampleParams).postConditionMode =
      PostConditionMode.deny :=
  C3_mode_always_deny c3ExampleParams SignerResponse.cancelled
    (buildContractCallRequest c3ExampleParams) (by decide)

/-- Claim C9: the payload `transferSTX` sends to the signer always
carries the amount as its string form `amount.toString()` — never as a
raw number. -/
theorem C9_amount_stringified : ∀ p : TransferSTXParams,
    (buildSTXTransferRequest p).amount = JsAmount.str p.amount.toString ∧
    ∀ n : Nat, (buildSTXTransferRequest p).amount ≠ JsAmount.num n :=
  fun p => ⟨rfl, fun n h => by simp [buildSTXTransferRequest] at h⟩

/-- Claim C7 (counterexample): the specification says the session
carries the address for the selected network, but `connectWallet`
returns the mainnet address unconditionally — on a profile whose testnet
address differs, the returned address is not the testnet-selected one. -/
theorem C7_counterexample :
    ((connectWallet {} (ConnectResponse.finished
        { userSession := { loadUserData :=
            { profile := { stxAddress :=
                { mainnet := "SP-MAIN", testnet := "ST-TEST" } } } } })).2 =
      Except.ok
        { userAddress := "SP-MAIN"
          userData := { profile := { stxAddress :=
            { mainnet := "SP-MAIN", testnet := "ST-TEST" } } } })
  ∧ specSelectedNetworkAddress StacksNetwork.testnet
      { stxAddress := { mainnet := "SP-MAIN", testnet := "ST-TEST" } } = "ST-TEST"
  ∧ ("SP-MAIN" : String) ≠ "ST-TEST" :=
  ⟨rfl, rfl, by decide⟩

/-- Claim C7 (amended): on every successful handshake `connectWallet`
resolves with the mainnet address from the loaded profile — regardless
of any network selection — together with the full user-data blob. -/
theorem C7_session_mainnet_address :
    ∀ (p : ConnectWalletParams) (d : ConnectFinishData),
      (connectWallet p (ConnectResponse.finished d)).2 =
        Except.ok
          { userAddress := d.userSession.loadUserData.profile.stxAddress.mainnet
            userData := d.userSession.loadUserData } :=
  fun _ _ => rfl

/-- Claim C1 (failing on `swapTokens`): `openVault`, `depositCollateral`
and `exampleSwapTokens` each attach a post-condition with comparator
`LessEqual` or `Equal` on the user principal bounding the debited
amount, but `swapTokens` builds its request with an empty post-condition
list for every input — the debit-protection rule is violated there. -/
theorem C1_swapTokens_missing_debit_postcondition :
    (∀ p : OpenVaultParams,
        ∃ pc ∈ (buildContractCallRequest (openVaultCallParams p)).postConditions,
          (pc.conditionCode = FungibleConditionCode.lessEqual ∨
           pc.conditionCode = FungibleConditionCode.equal) ∧
          pc.principal = p.userAddress ∧ pc.amount = p.collateralAmount)
  ∧ (∀ p : DepositCollateralParams,
        ∃ pc ∈ (buildContractCallRequest
            (depositCollateralCallParams p)).postConditions,
          (pc.conditionCode = FungibleConditionCode.lessEqual ∨
           pc.conditionCode = FungibleConditionCode.equal) ∧
          pc.principal = p.userAddress ∧ pc.amount = p.amount)
  ∧ (∀ p : ExampleSwapTokensParams,
        ∃ pc ∈ (buildContractCallRequest
            (exampleSwapTokensCallParams p)).postConditions,
          (pc.conditionCode = FungibleConditionCode.lessEqual ∨
           pc.conditionCode = FungibleConditionCode.equal) ∧
          pc.principal = p.userAddress ∧ pc.amount = p.amountIn)
  ∧ (∀ p : SwapTokensParams,
        (buildContractCallRequest (swapTokensCallParams p)).postConditions = []) := by
  refine ⟨fun p => ?_, fun p => ?_, fun p => ?_, fun p => rfl⟩
  · exact ⟨makeStandardSTXPostCondition p.userAddress
      FungibleConditionCode.lessEqual p.collateralAmount,
      List.mem_singleton_self _, Or.inl rfl, rfl, rfl⟩
  · exact ⟨makeStandardSTXPostCondition p.userAddress
      FungibleConditionCode.equal p.amount,
      List.mem_singleton_self _, Or.inr rfl, rfl, rfl⟩
  · exact ⟨makeStandardSTXPostCondition p.userAddress
      FungibleConditionCode.lessEqual p.amountIn,
      List.mem_singleton_self _, Or.inl rfl, rfl, rfl⟩

/-- Claim C6: `executeContractCall` and `transferSTX` resolve with a
transaction outcome carrying the txId and the raw transaction exactly
when the signer approves; no outcome exists without approval. -/
theorem C6_outcome_iff_approved :
    ∀ (p : ExecuteContractCallParams) (q : TransferSTXParams)
      (resp : SignerResponse) (o : TxOutcome),
      ((executeContractCall p resp).2 = Except.ok o ↔
        ∃ d, resp = SignerResponse.approved d ∧
          o = { txId := d.txId, txRaw := d.txRaw })
    ∧ ((transferSTX q resp).2 = Except.ok o ↔
        ∃ d, resp = SignerResponse.approved d ∧
          o = { txId := d.txId, txRaw := d.txRaw }) := by
  intro p q resp o
  cases resp with
  | approved d =>
    constructor <;>
      · simp only [executeContractCall, transferSTX, Except.ok.injEq,
          SignerResponse.approved.injEq]
        constructor
        · intro h
          exact ⟨d, rfl, h.symm⟩
        · rintro ⟨d', hd, ho⟩
          cases hd
          exact ho.symm
  | cancelled =>
    constructor <;>
      · simp [executeContractCall, transferSTX]

/-- Claim C8: each gateway and each domain flow issues its underlying
external operation exactly once per call, for every response — a failure
or cancellation never causes a re-issue — and the failure surfaces to
the immediate caller unmodified. -/
theorem C8_exactly_once_no_retry :
    (∀ (p : ReadOnlyParams) (r : Except JsError ClarityValue),
        (issuedOps (callReadOnlyFunction p r).1).length = 1)
  ∧ (∀ (p : ExecuteContractCallParams) (r : SignerResponse),
        (issuedOps (executeContractCall p r).1).length = 1)
  ∧ (∀ (p : TransferSTXParams) (r : SignerResponse),
        (issuedOps (transferSTX p r).1).length = 1)
  ∧ (∀ (p : ConnectWalletParams) (r : ConnectResponse),
        (issuedOps (connectWallet p r).1).length = 1)
  ∧ (∀ (p : OpenVaultParams) (r : SignerResponse),
        (issuedOps (openVault p r).1).length = 1)
  ∧ (∀ (p : DepositCollateralParams) (r : SignerResponse),
        (issuedOps (depositCollateral p r).1).length = 1)
  ∧ (∀ (p : SwapTokensParams) (r : SignerResponse),
        (issuedOps (swapTokens p r).1).length = 1)
  ∧ (∀ (p : ExampleSwapTokensParams) (r : SignerResponse),
        (issuedOps (exampleSwapTokens p r).1).length = 1)
  ∧ (∀ (a : String) (v : Nat) (r : Except JsError ClarityValue),
        (issuedOps (getUserVault a v r).1).length = 1)
  ∧ (∀ (a : String) (r : Except JsError ClarityValue),
        (issuedOps (getStxPrice a r).1).length = 1)
  ∧ (∀ (p : ReadOnlyParams) (e : JsError),
        (callReadOnlyFunction p (Except.error e)).2 = Except.error e)
  ∧ (∀ p : ExecuteContractCallParams,
        (executeContractCall p SignerResponse.cancelled).2 =
          Except.error userCancelledTxError)
  ∧ (∀ p : TransferSTXParams,
        (transferSTX p SignerResponse.cancelled).2 =
          Except.error userCancelledTransferError)
  ∧ (∀ (connResp : ConnectResponse) (priceResp : Except JsError ClarityValue)
        (vaultResp : SignerResponse) (detailsResp : Except JsError ClarityValue),
        (issuedOps (exampleUserFlow connResp priceResp vaultResp
          detailsResp).1).Nodup)
  ∧ (∀ (priceResp : Except JsError ClarityValue) (vaultResp : SignerResponse)
        (detailsResp : Except JsError ClarityValue),
        (exampleUserFlow ConnectResponse.cancelled priceResp vaultResp
          detailsResp).2 = Except.error userCancelledConnectError) := by
  have hecc : ∀ (p : ExecuteContractCallParams) (r : SignerResponse),
      (issuedOps (executeContractCall p r).1).length = 1 := by
    intro p r
    cases r <;> cases hf : p.onFinish <;> cases hc : p.onCancel <;>
      simp [executeContractCall, issuedOps, hf, hc]
  have htr : ∀ (p : TransferSTXParams) (r : SignerResponse),
      (issuedOps (transferSTX p r).1).length = 1 := by
    intro p r
    cases r <;> cases hf : p.onFinish <;> cases hc : p.onCancel <;>
      simp [transferSTX, issuedOps, hf, hc]
  have hconn : ∀ (p : ConnectWalletParams) (r : ConnectResponse),
      (issuedOps (connectWallet p r).1).length = 1 := by
    intro p r
    cases r <;> simp [connectWallet, issuedOps]
  refine ⟨fun p r => rfl, hecc, htr, hconn,
    fun p r => hecc _ r, fun p r => hecc _ r, fun p r => hecc _ r,
    fun p r => hecc _ r, fun a v r => rfl, fun a r => rfl,
    fun p e => rfl, fun p => rfl, fun p => rfl, ?_, fun _ _ _ => rfl⟩
  intro connResp priceResp vaultResp detailsResp
  cases connResp with
  | cancelled => simp [exampleUserFlow, connectWallet, issuedOps]
  | finished d =>
    cases priceResp with
    | error e =>
      simp [exampleUserFlow, connectWallet, getStxPrice, callReadOnlyFunction,
        issuedOps]
    | ok v =>
      cases vaultResp with
      | cancelled =>
        simp [exampleUserFlow, connectWallet, getStxPrice, callReadOnlyFunction,
          openVault, openVaultCallParams, executeContractCall,
          buildContractCallRequest, issuedOps]
      | approved fd =>
        cases detailsResp with
        | error e =>
          simp [exampleUserFlow, connectWallet, getStxPrice,
            callReadOnlyFunction, openVault, openVaultCallParams,
            executeContractCall, buildContractCallRequest, getUserVault,
            issuedOps]
        | ok w =>
          simp [exampleUserFlow, connectWallet, getStxPrice,
            callReadOnlyFunction, openVault, openVaultCallParams,
            executeContractCall, buildContractCallRequest, getUserVault,
            issuedOps]

/-- Claim C10: in `executeContractCall` and `transferSTX`, a supplied
`onFinish` (with the completion data) or `onCancel` callback runs
strictly before the promise settles, and the settlement value does not
depend on whether callbacks were supplied. -/
theorem C10_callback_before_settlement :
    (∀ (p : ExecuteContractCallParams) (d : FinishData), p.onFinish = true →
        invokedStrictlyBeforeSettle (Ev.finishCb d)
          (executeContractCall p (SignerResponse.approved d)).1)
  ∧ (∀ p : ExecuteContractCallParams, p.onCancel = true →
        invokedStrictlyBeforeSettle Ev.cancelCb
          (executeContractCall p SignerResponse.cancelled).1)
  ∧ (∀ (p : TransferSTXParams) (d : FinishData), p.onFinish = true →
        invokedStrictlyBeforeSettle (Ev.finishCb d)
          (transferSTX p (SignerResponse.approved d)).1)
  ∧ (∀ p : TransferSTXParams, p.onCancel = true →
        invokedStrictlyBeforeSettle Ev.cancelCb
          (transferSTX p SignerResponse.cancelled).1)
  ∧ (∀ (p : ExecuteContractCallParams) (f c : Bool) (r : SignerResponse),
        (executeContractCall { p with onFinish := f, onCancel := c } r).2 =
          (executeContractCall p r).2)
  ∧ (∀ (p : TransferSTXParams) (f c : Bool) (r : SignerResponse),
        (transferSTX { p with onFinish := f, onCancel := c } r).2 =
          (transferSTX p r).2) := by
  refine ⟨?_, ?_, ?_, ?_, ?_, ?_⟩
  · intro p d h
    refine ⟨[Ev.issue (RemoteOp.openContractCall (buildContractCallRequest p))],
      [Ev.resolvedTx { txId := d.txId, txRaw := d.txRaw }], ?_, ?_, ?_⟩
    · simp [executeContractCall, h]
    · intro e he
      simp at he
      subst he
      rfl
    · exact ⟨Ev.resolvedTx { txId := d.txId, txRaw := d.txRaw },
        List.mem_singleton_self _, rfl⟩
  · intro p h
    refine ⟨[Ev.issue (RemoteOp.openContractCall (buildContractCallRequest p))],
      [Ev.rejected userCancelledTxError], ?_, ?_, ?_⟩
    · simp [executeContractCall, h]
    · intro e he
      simp at he
      subst he
      rfl
    · exact ⟨Ev.rejected userCancelledTxError, List.mem_singleton_self _, rfl⟩
  · intro p d h
    refine ⟨[Ev.issue (RemoteOp.openSTXTransfer (buildSTXTransferRequest p))],
      [Ev.resolvedTx { txId := d.txId, txRaw := d.txRaw }], ?_, ?_, ?_⟩
    · simp [transferSTX, h]
    · intro e he
      simp at he
      subst he
      rfl
    · exact ⟨Ev.resolvedTx { txId := d.txId, txRaw := d.txRaw },
        List.mem_singleton_self _, rfl⟩
  · intro p h
    refine ⟨[Ev.issue (RemoteOp.openSTXTransfer (buildSTXTransferRequest p))],
      [Ev.rejected userCancelledTransferError], ?_, ?_, ?_⟩
    · simp [transferSTX, h]
    · intro e he
      simp at he
      subst he
      rfl
    · exact ⟨Ev.rejected userCancelledTransferError,
        List.mem_singleton_self _, rfl⟩
  · intro p f c r
    cases r <;> rfl
  · intro p f c r
    cases r <;> rfl

/-- Witness for `C10_callback_before_settlement` on concrete parameters
with both callbacks supplied and an approving signer. -/
theorem C10_callback_before_settlement_witness :
    invokedStrictlyBeforeSettle (Ev.finishCb c10ExampleData)
      (executeContractCall c10ExampleParams
        (SignerResponse.approved c10ExampleData)).1 :=
  C10_callback_before_settlement.1 c10ExampleParams c10ExampleData rfl

end StacksConnect
